import Mathlib

/-!
Shallow embedding of the EcoWisely backend's provider-integration and
orchestration layer (src/BackEnd/api_integrations.py and src/BackEnd/main.py).

Numbers are modelled as exact rationals (`ℚ`); Python's `round(x, n)`
(round-half-to-even on the n-th decimal) is modelled exactly by `pyRound`.
Vendor HTTP responses are modelled as a status code plus a body record whose
optional fields stand for possibly-absent JSON keys (an absent key raises
`KeyError` in the source, caught and turned into the malformed-response
message).  Environment-variable / API-key bootstrap is out of the modelled
scope (spec §1 excludes process bootstrap).
-/

namespace EcoWisely

/-- Round a rational to the nearest integer, halves to the even integer —
Python's `round` tie rule. -/
def roundHalfEven (x : ℚ) : ℤ :=
  let f : ℤ := Int.floor x
  let frac : ℚ := x - (f : ℚ)
  if frac < 1/2 then f
  else if 1/2 < frac then f + 1
  else if f % 2 = 0 then f else f + 1

/-- Python's `round(x, n)` on exact decimals. -/
def pyRound (x : ℚ) (n : ℕ) : ℚ :=
  ((roundHalfEven (x * 10 ^ n) : ℚ)) / 10 ^ n

/-- ASCII lowercasing, Python's `str.lower` on the condition keywords used here. -/
def lowerStr (s : String) : String :=
  String.mk (s.data.map Char.toLower)

/-- `isPref pat l`: `pat` is a leading segment of `l`. -/
def isPref : List Char → List Char → Bool
  | [], _ => true
  | _ :: _, [] => false
  | a :: as, b :: bs => a = b && isPref as bs

/-- `hasSub pat l`: `pat` occurs contiguously inside `l` (Python's `pat in s`). -/
def hasSub (pat : List Char) : List Char → Bool
  | [] => pat.isEmpty
  | c :: rest => isPref pat (c :: rest) || hasSub pat rest

/-- Python's substring test `pat in s`. -/
def strContains (s pat : String) : Bool :=
  hasSub pat.data s.data

/-- A single-quote character as a string (used to reproduce Python list reprs
in error messages). -/
def sq : String := String.mk [Char.ofNat 39]

/-- Wrap a word in single quotes, as Python's `repr` does. -/
def sqw (w : String) : String := sq ++ w ++ sq

-- ---------------------------------------------------------------------------
-- Carbon Estimator client (`calculate_carbon_climatiq`)
-- ---------------------------------------------------------------------------

def climatiqValidActivities : List String :=
  ["transport_car", "transport_bus", "diet_meat", "energy_electricity"]

def climatiqValidUnits : List String := ["km", "kg", "kWh"]

/-- Message of the `ValueError` raised for an activity type outside the list. -/
def invalidActivityMsg : String :=
  "Invalid activity_type. Must be one of: [" ++ sqw "transport_car" ++ ", " ++
    sqw "transport_bus" ++ ", " ++ sqw "diet_meat" ++ ", " ++
    sqw "energy_electricity" ++ "]"

/-- Message of the `ValueError` raised for a unit outside the list. -/
def invalidUnitMsg : String :=
  "Invalid unit. Must be one of: [" ++ sqw "km" ++ ", " ++ sqw "kg" ++ ", " ++
    sqw "kWh" ++ "]"

/-- The static activity → emission-factor attribution table
(activity_id, source, region, year). -/
def activityFactor (a : String) : String × String × String × String :=
  if a = "transport_car" then
    ("passenger_vehicle-vehicle_type_car-fuel_source_na-engine_size_na-vehicle_age_na-vehicle_weight_na",
      "BEIS", "GB", "2023")
  else if a = "transport_bus" then
    ("passenger_vehicle-vehicle_type_bus-fuel_source_na-engine_size_na-vehicle_age_na-vehicle_weight_na",
      "BEIS", "GB", "2023")
  else if a = "diet_meat" then
    ("consumer_goods-type_meat_products", "EXIOBASE", "GB", "2023")
  else
    ("electricity-supply_grid-source_grid_mix", "BEIS", "GB", "2023")

/-- Outbound request body for the Climatiq call: the factor attribution plus
the one parameter slot implied by the unit (the `None` slots are removed). -/
structure ClimatiqRequest where
  activityId : String
  source : String
  region : String
  year : String
  distance : Option ℚ
  weight : Option ℚ
  energy : Option ℚ
  deriving DecidableEq

def buildClimatiqBody (activity : String) (value : ℚ) (unit : String) : ClimatiqRequest :=
  let f := activityFactor activity
  { activityId := f.1, source := f.2.1, region := f.2.2.1, year := f.2.2.2
    distance := if unit = "km" then some value else none
    weight := if unit = "kg" then some value else none
    energy := if unit = "kWh" then some value else none }

/-- What `calculate_carbon_climatiq` does before any network traffic: either
it raises a `ValueError` (local validation failure) or it has a concrete
request body ready to post. -/
inductive CarbonStep where
  | localError (msg : String)
  | networkCall (req : ClimatiqRequest)
  deriving DecidableEq

def isNetworkCall : CarbonStep → Bool
  | .networkCall _ => true
  | .localError _ => false

/-- The pre-network phase of `calculate_carbon_climatiq`: membership checks on
the activity list and the unit list, then request construction.  There is no
check that the unit matches the activity kind. -/
def calculate_carbon_local (activity : String) (value : ℚ) (unit : String) : CarbonStep :=
  if activity ∉ climatiqValidActivities then .localError invalidActivityMsg
  else if unit ∉ climatiqValidUnits then .localError invalidUnitMsg
  else .networkCall (buildClimatiqBody activity value unit)

/-- A Climatiq 200-response body; `none` stands for an absent JSON field
(`co2e`, `co2e_calculation_origin`, `emission_factor.source`). -/
structure ClimatiqBody where
  co2e : Option ℚ
  origin : Option String
  factorSource : Option String
  deriving DecidableEq

structure CarbonEstimate where
  co2_kg : ℚ
  confidence : String
  data_source : String
  deriving DecidableEq

/-- The generic error message for a non-200 vendor status
(`f"API request failed with status {code}"`). -/
def genericStatusMsg (code : ℕ) : String :=
  "API request failed with status " ++ toString code

/-- Dedicated message of the Climatiq 429 branch. -/
def climatiqRateLimitMsg : String :=
  "API rate limit exceeded. Please try again later."

/-- Response handling of `calculate_carbon_climatiq`: a dedicated 429 branch,
a generic non-200 branch, and on 200 field extraction where every missing
field is defaulted (`data.get`) rather than rejected. -/
def calculate_carbon_response (status : ℕ) (body : ClimatiqBody) : Except String CarbonEstimate :=
  if status = 429 then .error climatiqRateLimitMsg
  else if status ≠ 200 then .error (genericStatusMsg status)
  else .ok { co2_kg := body.co2e.getD 0
             confidence := body.origin.getD "unknown"
             data_source := body.factorSource.getD "Climatiq" }

-- ---------------------------------------------------------------------------
-- Weather Reader client (`get_weather_data`)
-- ---------------------------------------------------------------------------

/-- An OpenWeatherMap 200-response body; `none` stands for an absent JSON
field (`main.temp`, `weather[0].main`, `weather[0].description`,
`main.humidity`, `wind.speed`), whose access raises `KeyError` in the source. -/
structure WeatherBody where
  temp : Option ℚ
  condMain : Option String
  condDescription : Option String
  humidity : Option ℚ
  windSpeed : Option ℚ
  deriving DecidableEq

structure WeatherReading where
  temperature : ℚ
  conditions : String
  description : String
  humidityPct : ℚ
  wind_speed : ℚ
  deriving DecidableEq

def malformedMsg : String := "Invalid API response format"

/-- Response handling of `get_weather_data`: 401 and 404 have dedicated
branches, every other non-200 (including 429) takes the generic branch; on
200 all five fields are required, a missing one raises `KeyError`, caught and
reported as the malformed-response message. -/
def get_weather_data_response (status : ℕ) (body : WeatherBody) : Except String WeatherReading :=
  if status = 401 then .error "Invalid API key"
  else if status = 404 then .error "Location not found"
  else if status ≠ 200 then .error (genericStatusMsg status)
  else
    match body.temp, body.condMain, body.condDescription, body.humidity, body.windSpeed with
    | some t, some c, some d, some h, some w =>
        .ok { temperature := t, conditions := c, description := d
              humidityPct := h, wind_speed := w }
    | _, _, _, _, _ => .error malformedMsg

def emptyWeatherBody : WeatherBody := ⟨none, none, none, none, none⟩

-- ---------------------------------------------------------------------------
-- Route Planner client (`calculate_route_emissions`)
-- ---------------------------------------------------------------------------

def routeValidModes : List String := ["driving", "transit", "walking", "bicycling"]

/-- Message of the `ValueError` raised for a mode outside the list. -/
def invalidModeMsg : String :=
  "Invalid mode. Must be one of: [" ++ sqw "driving" ++ ", " ++ sqw "transit" ++
    ", " ++ sqw "walking" ++ ", " ++ sqw "bicycling" ++ "]"

/-- The fixed kg-CO2-per-km emission-factor table, with the
`emission_factors.get(mode, 0)` fallback. -/
def emissionFactor (mode : String) : ℚ :=
  if mode = "driving" then 171/1000
  else if mode = "transit" then 89/1000
  else if mode = "walking" then 0
  else if mode = "bicycling" then 0
  else 0

/-- Static vendor-status → human message table, with the generic fallback. -/
def googleStatusMessage (st : String) : String :=
  if st = "NOT_FOUND" then "One or more locations could not be found"
  else if st = "ZERO_RESULTS" then "No route could be found between the locations"
  else if st = "MAX_WAYPOINTS_EXCEEDED" then "Too many waypoints provided"
  else if st = "INVALID_REQUEST" then "Invalid request parameters"
  else if st = "OVER_QUERY_LIMIT" then "API query limit exceeded"
  else if st = "REQUEST_DENIED" then "API request denied"
  else if st = "UNKNOWN_ERROR" then "Unknown error occurred"
  else "API error: " ++ st

/-- One leg of a Directions response; `none` stands for an absent JSON field. -/
structure DirectionsLeg where
  distanceValue : Option ℚ
  durationValue : Option ℚ
  startAddress : Option String
  endAddress : Option String
  deriving DecidableEq

structure DirectionsRoute where
  legs : List DirectionsLeg
  overviewPolyline : Option String
  deriving DecidableEq

structure DirectionsBody where
  status : Option String
  routes : List DirectionsRoute
  deriving DecidableEq

/-- The success payload of `calculate_route_emissions`. -/
structure RouteSuccess where
  distance_km : ℚ
  duration_min : ℚ
  co2_kg : ℚ
  route_polyline : String
  start_address : String
  end_address : String
  deriving DecidableEq

/-- Result of one `calculate_route_emissions` call as seen by its caller:
a success dict, an error dict (`success: False` with a message), or a raised
`ValueError` that propagates out of the function. -/
inductive PlannerResult where
  | ok (r : RouteSuccess)
  | fail (msg : String)
  | raised (msg : String)
  deriving DecidableEq

/-- `calculate_route_emissions`, over a vendor response (status code + body):
mode validation raises; a non-200 status takes the generic branch (there is no
dedicated 429 branch); a non-"OK" vendor status is mapped through the static
table; extraction reads `routes[0].legs[0]` only, converts metres → km and
seconds → minutes, and derives CO2 locally from the unrounded km distance. -/
def calculate_route_emissions (mode : String) (status : ℕ) (body : DirectionsBody) : PlannerResult :=
  if mode ∉ routeValidModes then .raised invalidModeMsg
  else if status ≠ 200 then .fail (genericStatusMsg status)
  else
    match body.status with
    | none => .fail malformedMsg
    | some st =>
      if st ≠ "OK" then .fail (googleStatusMessage st)
      else
        match body.routes.head? with
        | none => .fail malformedMsg
        | some route =>
          match route.legs.head? with
          | none => .fail malformedMsg
          | some leg =>
            match leg.distanceValue, leg.durationValue, route.overviewPolyline,
                  leg.startAddress, leg.endAddress with
            | some dm, some ds, some poly, some sa, some ea =>
                .ok { distance_km := pyRound (dm / 1000) 2
                      duration_min := pyRound (ds / 60) 1
                      co2_kg := pyRound (dm / 1000 * emissionFactor mode) 3
                      route_polyline := poly
                      start_address := sa
                      end_address := ea }
            | _, _, _, _, _ => .fail malformedMsg

def emptyDirectionsBody : DirectionsBody := ⟨none, []⟩

-- ---------------------------------------------------------------------------
-- Rate limiter (`rate_limit_middleware`)
-- ---------------------------------------------------------------------------

/-- Drop the timestamps 60 seconds old or older
(the source keeps `current_time - timestamp < 60`). -/
def pruneWindow (now : ℚ) (w : List ℚ) : List ℚ :=
  w.filter (fun t => now - t < 60)

/-- One admission decision of `rate_limit_middleware` for one caller key:
prune, then reject (429) leaving the pruned window, or admit appending the
new timestamp.  Returns (admitted?, new stored window). -/
def rate_limit_middleware (now : ℚ) (w : List ℚ) : Bool × List ℚ :=
  let w2 := pruneWindow now w
  if w2.length ≥ 60 then (false, w2)
  else (true, w2 ++ [now])

/-- Run a sequence of inbound requests (their timestamps) for one key,
returning the admission decisions and the final stored window. -/
def rateLimitRun : List ℚ → List ℚ → List Bool × List ℚ
  | [], w => ([], w)
  | t :: ts, w =>
    let step := rate_limit_middleware t w
    let rest := rateLimitRun ts step.2
    (step.1 :: rest.1, rest.2)

-- ---------------------------------------------------------------------------
-- Metrics collector (`metrics_middleware` sample ring and `get_metrics` p95)
-- ---------------------------------------------------------------------------

/-- Append a response-time sample, keeping only the last 1000
(`response_times[-1000:]`). -/
def metrics_record_sample (samples : List ℚ) (d : ℚ) : List ℚ :=
  let s := samples ++ [d]
  if s.length > 1000 then s.drop (s.length - 1000) else s

/-- Insertion sort on rationals (Python's `sorted`; for a list of numbers any
sorted permutation is the same list, so the algorithm choice is immaterial). -/
def insortQ (x : ℚ) : List ℚ → List ℚ
  | [] => [x]
  | y :: ys => if x ≤ y then x :: y :: ys else y :: insortQ x ys

def sortQ (l : List ℚ) : List ℚ := l.foldr insortQ []

/-- `int(len(response_times) * 0.95)`: the float factor is modelled as the
exact 95/100, which agrees with the double computation for every sample count
the 1000-sample ring allows. -/
def p95Index (n : ℕ) : ℕ := (Int.floor ((95 : ℚ) / 100 * n)).toNat

/-- The 95th-percentile figure of `get_metrics`: sort the current samples and
index at `int(n * 0.95)` when `n > 20`, else report 0. -/
def p95_response_time (samples : List ℚ) : ℚ :=
  if samples.length > 20 then (sortQ samples).getD (p95Index samples.length) 0
  else 0

-- ---------------------------------------------------------------------------
-- Weather advisory generator (`weather_recommendations`)
-- ---------------------------------------------------------------------------

def tempRecs (t : ℚ) : List String :=
  if t > 25 then
    ["Consider using a fan instead of AC to save energy",
     "Open windows in the evening for natural cooling",
     "Use window shades during peak sun hours"]
  else if t < 10 then
    ["Layer clothing before turning up the heat",
     "Use draft excluders to keep heat in",
     "Drink warm beverages to feel warmer naturally"]
  else
    ["Perfect temperature for natural ventilation",
     "Consider reducing heating/cooling usage"]

def clearSunRecs : List String :=
  ["Great day for line-drying laundry instead of using dryer",
   "Open curtains to warm your home naturally",
   "Excellent conditions for solar charging devices"]

def rainRecs : List String :=
  ["Collect rainwater for plants and garden use",
   "Good day to work from home and reduce transport emissions"]

def cloudRecs : List String :=
  ["Mild conditions - perfect for outdoor activities without AC"]

/-- The condition-keyword rules: an `if`/`elif` chain on case-insensitive
substring tests over the lowercased condition keyword — at most one bucket
fires, the first matching one. -/
def condRecs (conditions : String) : List String :=
  let c := lowerStr conditions
  if strContains c "clear" || strContains c "sun" then clearSunRecs
  else if strContains c "rain" then rainRecs
  else if strContains c "cloud" then cloudRecs
  else []

def windRecs (w : ℚ) : List String :=
  if w > 5 then ["Windy day - perfect for air-drying laundry quickly"] else []

/-- The advisory list built by `weather_recommendations`: temperature rules,
then condition rules, then the wind rule. -/
def weather_recommendations (t : ℚ) (conditions : String) (wind : ℚ) : List String :=
  tempRecs t ++ condRecs conditions ++ windRecs wind

-- ---------------------------------------------------------------------------
-- Route comparator (`route_optimize` endpoint)
-- ---------------------------------------------------------------------------

/-- One entry of the endpoint's `routes` list. -/
structure RouteLeg where
  mode : String
  distance_km : ℚ
  duration_min : ℚ
  co2_kg : ℚ
  start_address : String
  end_address : String
  route_polyline : String
  deriving DecidableEq

def legFrom (mode : String) (r : RouteSuccess) : RouteLeg :=
  { mode := mode, distance_km := r.distance_km, duration_min := r.duration_min
    co2_kg := r.co2_kg, start_address := r.start_address
    end_address := r.end_address, route_polyline := r.route_polyline }

/-- The per-mode loop of `route_optimize`, instrumented with the list of modes
for which the Route Planner client was actually invoked.  A `fail` result is
logged and skipped; an `ok` result contributes a leg; a raised `ValueError`
aborts the loop (its message is the `Except.error`). -/
def collectLegsTraced (planner : String → PlannerResult) :
    List String → List String × Except String (List RouteLeg)
  | [] => ([], .ok [])
  | m :: ms =>
    match planner m with
    | .raised e => ([m], .error e)
    | .fail _ =>
      let rest := collectLegsTraced planner ms
      (m :: rest.1, rest.2)
    | .ok r =>
      let rest := collectLegsTraced planner ms
      (m :: rest.1, rest.2.map (legFrom m r :: ·))

def collectLegs (planner : String → PlannerResult) (modes : List String) :
    Except String (List RouteLeg) :=
  (collectLegsTraced planner modes).2

/-- CPython `min(routes, key=...)`: fold keeping the current leg unless a
later one has strictly smaller co2 — ties keep the earlier leg. -/
def minLeg : RouteLeg → List RouteLeg → RouteLeg
  | b, [] => b
  | b, x :: xs => minLeg (if x.co2_kg < b.co2_kg then x else b) xs

/-- CPython `max(routes, key=...)`: ties keep the earlier leg. -/
def maxLeg : RouteLeg → List RouteLeg → RouteLeg
  | b, [] => b
  | b, x :: xs => maxLeg (if b.co2_kg < x.co2_kg then x else b) xs

/-- Specification-side argmin: the first leg whose co2 is ≤ every leg's co2,
i.e. the first occurrence of the minimum. -/
def firstMinLeg (legs : List RouteLeg) : Option RouteLeg :=
  legs.find? (fun x => legs.all (fun y => x.co2_kg ≤ y.co2_kg))

/-- Specification-side argmax: the first occurrence of the maximum. -/
def firstMaxLeg (legs : List RouteLeg) : Option RouteLeg :=
  legs.find? (fun x => legs.all (fun y => y.co2_kg ≤ x.co2_kg))

structure RouteResponse where
  routes : List RouteLeg
  recommended : String
  savings_co2_kg : ℚ
  deriving DecidableEq

/-- An exception escaping the `try` body of the endpoint. -/
inductive RaisedExc where
  | valueError (msg : String)
  | httpExc (code : ℕ) (detail : String)
  deriving DecidableEq

/-- The `try` body of `route_optimize`: collect legs (a `ValueError` from the
client propagates), raise HTTP 500 "Could not calculate any routes" when no
leg succeeded, otherwise build the comparison from the first-occurrence
min/max legs.  (The response's wall-clock timestamp field is out of scope.) -/
def route_optimize_body (planner : String → PlannerResult) (modes : List String) :
    Except RaisedExc RouteResponse :=
  match collectLegs planner modes with
  | .error e => .error (.valueError e)
  | .ok [] => .error (.httpExc 500 "Could not calculate any routes")
  | .ok (r :: rs) =>
    .ok { routes := r :: rs
          recommended := (minLeg r rs).mode
          savings_co2_kg := pyRound ((maxLeg r rs).co2_kg - (minLeg r rs).co2_kg) 2 }

/-- What the endpoint's caller observes. -/
inductive RouteOutcome where
  | ok (resp : RouteResponse)
  | httpErr (code : ℕ) (detail : String)
  deriving DecidableEq

/-- The whole `route_optimize` endpoint: its `except ValueError` clause maps a
raised `ValueError` to HTTP 400, and its blanket `except Exception` clause
catches every other exception — including the endpoint's own
`HTTPException(500, "Could not calculate any routes")`, since FastAPI's
`HTTPException` subclasses `Exception` — and replaces it with
HTTP 500 "Internal server error". -/
def route_optimize (planner : String → PlannerResult) (modes : List String) : RouteOutcome :=
  match route_optimize_body planner modes with
  | .ok resp => .ok resp
  | .error (.valueError m) => .httpErr 400 m
  | .error (.httpExc _ _) => .httpErr 500 "Internal server error"

-- Concrete planner fixtures for counterexamples and witnesses.

def mkRS (dkm dmin co2 : ℚ) : RouteSuccess :=
  { distance_km := dkm, duration_min := dmin, co2_kg := co2
    route_polyline := "poly", start_address := "A", end_address := "B" }

/-- Planner whose driving leg carries co2 0.171 (a 1 km driving route) and
whose walking leg carries co2 0. -/
def planner171 : String → PlannerResult := fun m =>
  if m = "driving" then .ok (mkRS 1 3 (171/1000))
  else if m = "walking" then .ok (mkRS 1 12 0)
  else .fail (genericStatusMsg 500)

/-- Planner whose driving and walking legs both carry co2 0
(a zero-length route). -/
def plannerZero : String → PlannerResult := fun m =>
  if m = "driving" then .ok (mkRS 0 0 0)
  else if m = "walking" then .ok (mkRS 0 0 0)
  else .fail (genericStatusMsg 500)

/-- Planner whose driving leg carries co2 0.3 and whose walking leg carries
co2 0. -/
def planner03 : String → PlannerResult := fun m =>
  if m = "driving" then .ok (mkRS 2 4 (3/10))
  else if m = "walking" then .ok (mkRS 2 25 0)
  else .fail (genericStatusMsg 500)

/-- Planner for which every mode fails with a provider error dict. -/
def plannerAllFail : String → PlannerResult := fun _ =>
  .fail (genericStatusMsg 500)

/-- Planner failing for driving but succeeding for walking. -/
def plannerDrivingFails : String → PlannerResult := fun m =>
  if m = "walking" then .ok (mkRS 1 12 0)
  else .fail "No route could be found between the locations"

/-- A Directions body whose first leg is 1005 metres long. -/
def dirBody1005 : DirectionsBody :=
  { status := some "OK"
    routes := [{ legs := [{ distanceValue := some 1005, durationValue := some 60
                            startAddress := some "A", endAddress := some "B" }]
                 overviewPolyline := some "poly" }] }

/-- A complete Directions body with a 2000 m, 300 s leg. -/
def dirBody2000 : DirectionsBody :=
  { status := some "OK"
    routes := [{ legs := [{ distanceValue := some 2000, durationValue := some 300
                            startAddress := some "A", endAddress := some "B" }]
                 overviewPolyline := some "poly" }] }

/-- A complete weather body. -/
def fullWeatherBody : WeatherBody :=
  ⟨some 30, some "Clear", some "clear sky", some 40, some 3⟩

instance {ε α : Type} [DecidableEq ε] [DecidableEq α] : DecidableEq (Except ε α) := fun a b =>
  match a, b with
  | .ok x, .ok y =>
    if h : x = y then .isTrue (by rw [h]) else .isFalse (by intro hc; cases hc; exact h rfl)
  | .error x, .error y =>
    if h : x = y then .isTrue (by rw [h]) else .isFalse (by intro hc; cases hc; exact h rfl)
  | .ok _, .error _ => .isFalse (by intro hc; cases hc)
  | .error _, .ok _ => .isFalse (by intro hc; cases hc)

-- ===========================================================================
-- Theorems
-- ===========================================================================

/-- C10: with an empty list of requested modes the comparator invokes the
Route Planner for no mode at all; the loop produces zero legs, the code then
raises `HTTPException(500, "Could not calculate any routes")` — the same
branch as the all-modes-failed case — but that exception is caught by the
endpoint's own blanket `except Exception` clause, so the caller actually
receives HTTP 500 "Internal server error" instead of the intended detail. -/
theorem empty_modes_no_call_message_swallowed :
    ∀ planner : String → PlannerResult,
      (collectLegsTraced planner []).1 = [] ∧
      route_optimize_body planner [] =
        .error (.httpExc 500 "Could not calculate any routes") ∧
      route_optimize planner [] = .httpErr 500 "Internal server error" := by
  intro planner
  exact ⟨rfl, rfl, rfl⟩

/-- C2: a provider failure for one mode only drops that mode — the planner is
still invoked for the remaining modes and their legs are kept — and when every
mode fails the loop body raises
`HTTPException(500, "Could not calculate any routes")`; but that exception is
swallowed by the endpoint's blanket `except Exception` clause, so the caller
receives HTTP 500 "Internal server error" rather than the intended message. -/
theorem route_compare_all_fail_message_swallowed :
    (collectLegsTraced plannerDrivingFails ["driving", "walking"]).1 =
      ["driving", "walking"] ∧
    collectLegs plannerDrivingFails ["driving", "walking"] =
      .ok [legFrom "walking" (mkRS 1 12 0)] ∧
    route_optimize_body plannerAllFail ["driving", "walking"] =
      .error (.httpExc 500 "Could not calculate any routes") ∧
    route_optimize plannerAllFail ["driving", "walking"] =
      .httpErr 500 "Internal server error" := by
  exact ⟨rfl, rfl, rfl, rfl⟩

/-- C6 counterexample: at HTTP 429 the weather client and the route client
take the same generic non-200 branch used for every other failing status
(e.g. 503), with no dedicated rate-limited classification; only the Climatiq
client has a distinct 429 branch. -/
theorem status429_generic_counterexample :
    get_weather_data_response 429 emptyWeatherBody =
      .error "API request failed with status 429" ∧
    get_weather_data_response 503 emptyWeatherBody =
      .error (genericStatusMsg 503) ∧
    calculate_route_emissions "driving" 429 emptyDirectionsBody =
      .fail (genericStatusMsg 429) ∧
    calculate_carbon_response 429 ⟨none, none, none⟩ = .error climatiqRateLimitMsg ∧
    climatiqRateLimitMsg ≠ "API request failed with status 429" := by
  refine ⟨rfl, rfl, rfl, rfl, ?_⟩
  decide

/-- C6 amended: an HTTP 429 response is classified as a distinct rate-limited
failure only by the carbon client; the weather and route clients classify 429
with the generic provider-error message used for any other non-200 status. -/
theorem status429_classification :
    (∀ b : ClimatiqBody, calculate_carbon_response 429 b = .error climatiqRateLimitMsg) ∧
    (∀ b : WeatherBody, get_weather_data_response 429 b = .error (genericStatusMsg 429)) ∧
    (∀ b : DirectionsBody,
      calculate_route_emissions "driving" 429 b = .fail (genericStatusMsg 429)) ∧
    climatiqRateLimitMsg ≠ genericStatusMsg 429 := by
  refine ⟨fun b => rfl, fun b => rfl, fun b => rfl, by decide⟩

/-- C5 counterexample: the request kind "diet_meat" with the mismatched (but
individually valid) unit "km" passes the local validation of
`calculate_carbon_climatiq` and proceeds to construct a network request — it
is not rejected before the network call as the claim states. -/
theorem carbon_unit_mismatch_counterexample :
    isNetworkCall (calculate_carbon_local "diet_meat" 5 "km") = true ∧
    calculate_carbon_local "diet_meat" 5 "km" =
      .networkCall (buildClimatiqBody "diet_meat" 5 "km") := by
  exact ⟨rfl, rfl⟩

/-- C5 amended: the carbon client's local validation (raising `ValueError`
before any network traffic) fires exactly when the kind is outside the
supported list or the unit is outside the supported list; a supported kind
paired with a mismatched supported unit is not rejected — the request
proceeds to the network with the magnitude placed in the one parameter slot
implied by the unit. -/
theorem carbon_local_validation :
    (∀ (a u : String) (v : ℚ),
        (∃ m, calculate_carbon_local a v u = .localError m) ↔
          (a ∉ climatiqValidActivities ∨ u ∉ climatiqValidUnits)) ∧
    (∀ (a u : String) (v : ℚ), a ∈ climatiqValidActivities → u ∈ climatiqValidUnits →
        calculate_carbon_local a v u = .networkCall (buildClimatiqBody a v u) ∧
        (buildClimatiqBody a v u).distance = (if u = "km" then some v else none) ∧
        (buildClimatiqBody a v u).weight = (if u = "kg" then some v else none) ∧
        (buildClimatiqBody a v u).energy = (if u = "kWh" then some v else none)) := by
  constructor
  · intro a u v
    unfold calculate_carbon_local
    by_cases ha : a ∈ climatiqValidActivities
    · by_cases hu : u ∈ climatiqValidUnits
      · simp [ha, hu]
      · simp [ha, hu]
    · simp [ha]
  · intro a u v ha hu
    refine ⟨?_, rfl, rfl, rfl⟩
    unfold calculate_carbon_local
    simp [ha, hu]

/-- C5 witness: a carbon client call at the concrete mismatched pair
("diet_meat", "km") builds a network request carrying the magnitude in the
distance slot. -/
theorem carbon_local_validation_witness :
    calculate_carbon_local "diet_meat" 5 "km" =
      .networkCall (buildClimatiqBody "diet_meat" 5 "km") ∧
    (buildClimatiqBody "diet_meat" 5 "km").distance = some 5 ∧
    (buildClimatiqBody "diet_meat" 5 "km").weight = none ∧
    (buildClimatiqBody "diet_meat" 5 "km").energy = none := by
  have h := carbon_local_validation.2 "diet_meat" "km" 5 (by decide) (by decide)
  refine ⟨h.1, ?_, ?_, ?_⟩
  · rw [h.2.1]; decide
  · rw [h.2.2.1]; decide
  · rw [h.2.2.2]; decide

/-- C7 counterexample: the condition "Sunny Rain" satisfies both the
"clear"/"sun" substring test and the "rain" substring test, yet only the
first bucket's three suggestions are produced — the rain bucket's suggestion
does not appear anywhere in the advisory list, so the buckets are not
cumulative. -/
theorem condition_buckets_counterexample :
    strContains (lowerStr "Sunny Rain") "sun" = true ∧
    strContains (lowerStr "Sunny Rain") "rain" = true ∧
    condRecs "Sunny Rain" = clearSunRecs ∧
    "Collect rainwater for plants and garden use" ∈ rainRecs ∧
    "Collect rainwater for plants and garden use" ∉
      weather_recommendations 20 "Sunny Rain" 0 := by
  refine ⟨rfl, rfl, rfl, by decide, by decide⟩

/-- C9 counterexample: a 200 Climatiq response whose body lacks the `co2e`
field (and every other field) is normalized into a successful estimate with
co2_kg defaulted to 0 — not into a malformed-response failure. -/
theorem missing_co2e_success_counterexample :
    calculate_carbon_response 200 ⟨none, none, none⟩ =
      .ok { co2_kg := 0, confidence := "unknown", data_source := "Climatiq" } := by
  rfl

/-- C7 amended: the advisory list is temperature rules, then condition rules,
then the wind rule; the condition-keyword rules are an if/elif chain over
case-insensitive substring tests, so exactly the first matching bucket fires
("clear"/"sun" → 3 suggestions, else "rain" → 2, else "cloud" → 1, else
none) — the buckets are mutually exclusive, not cumulative. -/
theorem condition_buckets_first_match :
    (∀ (t w : ℚ) (c : String),
        weather_recommendations t c w = tempRecs t ++ condRecs c ++ windRecs w) ∧
    (∀ c : String,
        (strContains (lowerStr c) "clear" || strContains (lowerStr c) "sun") = true →
        condRecs c = clearSunRecs) ∧
    (∀ c : String,
        (strContains (lowerStr c) "clear" || strContains (lowerStr c) "sun") = false →
        strContains (lowerStr c) "rain" = true → condRecs c = rainRecs) ∧
    (∀ c : String,
        (strContains (lowerStr c) "clear" || strContains (lowerStr c) "sun") = false →
        strContains (lowerStr c) "rain" = false →
        strContains (lowerStr c) "cloud" = true → condRecs c = cloudRecs) ∧
    (∀ c : String,
        (strContains (lowerStr c) "clear" || strContains (lowerStr c) "sun") = false →
        strContains (lowerStr c) "rain" = false →
        strContains (lowerStr c) "cloud" = false → condRecs c = []) ∧
    clearSunRecs.length = 3 ∧ rainRecs.length = 2 ∧ cloudRecs.length = 1 := by
  refine ⟨fun t w c => rfl, ?_, ?_, ?_, ?_, rfl, rfl, rfl⟩
  · intro c h; unfold condRecs; simp [h]
  · intro c h1 h2; unfold condRecs; simp [h1, h2]
  · intro c h1 h2 h3; unfold condRecs; simp [h1, h2, h3]
  · intro c h1 h2 h3; unfold condRecs; simp [h1, h2, h3]

/-- C7 witness: concrete readings exercising the first-match rule — "Clear"
fires the clear/sun bucket, "Rainy" fires the rain bucket. -/
theorem condition_buckets_first_match_witness :
    condRecs "Clear" = clearSunRecs ∧ condRecs "Rainy" = rainRecs := by
  exact ⟨condition_buckets_first_match.2.1 "Clear" (by decide),
    condition_buckets_first_match.2.2.1 "Rainy" (by decide) (by decide)⟩

/-- C9 amended: on a 200 response the weather client succeeds only when all
five expected fields are present, and an absent field yields the
malformed-response failure "Invalid API response format"; the route client
likewise fails on a missing `routes[0]`; the carbon client, however, never
fails on a 200 body — it defaults a missing `co2e` to 0, a missing origin to
"unknown" and a missing source to "Climatiq" and succeeds. -/
theorem malformed_response_handling :
    (∀ (b : WeatherBody) (r : WeatherReading), get_weather_data_response 200 b = .ok r →
        b.temp = some r.temperature ∧ b.condMain = some r.conditions ∧
        b.condDescription = some r.description ∧ b.humidity = some r.humidityPct ∧
        b.windSpeed = some r.wind_speed) ∧
    (∀ b : WeatherBody,
        b.temp = none ∨ b.condMain = none ∨ b.condDescription = none ∨
          b.humidity = none ∨ b.windSpeed = none →
        get_weather_data_response 200 b = .error malformedMsg) ∧
    (∀ b : DirectionsBody, b.status = some "OK" → b.routes = [] →
        calculate_route_emissions "driving" 200 b = .fail malformedMsg) ∧
    (∀ b : ClimatiqBody, calculate_carbon_response 200 b =
        .ok { co2_kg := b.co2e.getD 0, confidence := b.origin.getD "unknown",
              data_source := b.factorSource.getD "Climatiq" }) := by
  refine ⟨?_, ?_, ?_, fun b => rfl⟩
  · intro b r h
    obtain ⟨t, c, d, hu, w⟩ := b
    cases t <;> cases c <;> cases d <;> cases hu <;> cases w <;>
      simp [get_weather_data_response] at h <;>
      (subst h; exact ⟨rfl, rfl, rfl, rfl, rfl⟩)
  · intro b h
    obtain ⟨t, c, d, hu, w⟩ := b
    cases t <;> cases c <;> cases d <;> cases hu <;> cases w <;>
      simp_all [get_weather_data_response]
  · intro b h1 h2
    obtain ⟨st, rts⟩ := b
    simp only at h1 h2
    subst h1; subst h2
    rfl

/-- C9 witness: a complete 200 weather body parses into the expected reading,
a weather body missing its temperature field is rejected as malformed, and a
route body with an empty routes array is rejected as malformed. -/
theorem malformed_response_handling_witness :
    fullWeatherBody.temp = some 30 ∧ fullWeatherBody.condMain = some "Clear" ∧
    get_weather_data_response 200 ⟨none, some "Clear", some "clear sky", some 40, some 3⟩ =
      .error malformedMsg ∧
    calculate_route_emissions "driving" 200 ⟨some "OK", []⟩ = .fail malformedMsg := by
  have h1 := malformed_response_handling.1 fullWeatherBody
    ⟨30, "Clear", "clear sky", 40, 3⟩ rfl
  have h2 := malformed_response_handling.2.1
    ⟨none, some "Clear", some "clear sky", some 40, some 3⟩ (Or.inl rfl)
  have h3 := malformed_response_handling.2.2.1 ⟨some "OK", []⟩ rfl rfl
  exact ⟨h1.1, h1.2.1, h2, h3⟩

/-- C8: the metrics snapshot reports a 95th percentile of 0 when at most 20
samples are recorded, and otherwise the element of the sorted current sample
set at 0-based index `int(0.95 × n)` — index 23 for n = 25 — while the
sample store keeps only the most recent 1000 response times, evicting the
oldest first. -/
theorem metrics_p95_spec :
    (∀ s : List ℚ, s.length ≤ 20 → p95_response_time s = 0) ∧
    (∀ s : List ℚ, 20 < s.length →
        p95_response_time s = (sortQ s).getD (p95Index s.length) 0) ∧
    (∀ s : List ℚ, s.length = 25 → p95_response_time s = (sortQ s).getD 23 0) ∧
    (∀ (s : List ℚ) (d : ℚ),
        metrics_record_sample s d = (s ++ [d]).drop (s.length + 1 - 1000)) ∧
    (∀ (s : List ℚ) (d : ℚ), s.length ≤ 1000 →
        (metrics_record_sample s d).length = min (s.length + 1) 1000) := by
  have hdrop : ∀ (s : List ℚ) (d : ℚ),
      metrics_record_sample s d = (s ++ [d]).drop (s.length + 1 - 1000) := by
    intro s d
    unfold metrics_record_sample
    simp only [List.length_append, List.length_cons, List.length_nil]
    by_cases h : s.length + 1 > 1000
    · simp [h]
    · have h0 : s.length + 1 - 1000 = 0 := by omega
      simp [h, h0]
  refine ⟨?_, ?_, ?_, hdrop, ?_⟩
  · intro s h
    unfold p95_response_time
    have : ¬ s.length > 20 := by omega
    simp [this]
  · intro s h
    unfold p95_response_time
    simp [h]
  · intro s h
    unfold p95_response_time
    rw [h]
    have h23 : p95Index 25 = 23 := by
      unfold p95Index
      norm_num
      decide
    simp [h23]
  · intro s d h
    rw [hdrop]
    rw [List.length_drop]
    simp only [List.length_append, List.length_cons, List.length_nil]
    omega

/-- C8 witness: 25 recorded samples give the sorted value at index 23 (here
the constant 7); 10 samples give 0; recording onto a short list appends. -/
theorem metrics_p95_spec_witness :
    p95_response_time (List.replicate 25 (7 : ℚ)) = 7 ∧
    p95_response_time (List.replicate 10 (7 : ℚ)) = 0 ∧
    metrics_record_sample [1, 2] 3 = [1, 2, 3] := by
  refine ⟨?_, ?_, ?_⟩
  · have h := metrics_p95_spec.2.2.1 (List.replicate 25 (7 : ℚ)) (by decide)
    rw [h]; decide
  · exact metrics_p95_spec.1 _ (by decide)
  · have h := metrics_p95_spec.2.2.2.1 [1, 2] (3 : ℚ)
    rw [h]; decide

/-- The prune step keeps a window untouched when every entry is fresh. -/
lemma pruneWindow_eq_self (now : ℚ) (w : List ℚ) (h : ∀ x ∈ w, now - x < 60) :
    pruneWindow now w = w := by
  unfold pruneWindow
  rw [List.filter_eq_self]
  intro a ha
  exact decide_eq_true (h a ha)

/-- Every request whose timestamp lies in the same open 60-second interval as
all already-stored timestamps is admitted, as long as capacity remains:
running them from such a window appends them all, all admitted. -/
lemma rateLimitRun_all_admitted (a : ℚ) :
    ∀ (ts w : List ℚ), (∀ x ∈ w, a ≤ x ∧ x < a + 60) →
      (∀ x ∈ ts, a ≤ x ∧ x < a + 60) → w.length + ts.length ≤ 60 →
      rateLimitRun ts w = (List.replicate ts.length true, w ++ ts) := by
  intro ts
  induction ts with
  | nil => intro w _ _ _; simp [rateLimitRun]
  | cons t rest ih =>
    intro w hw hts hlen
    have ht : a ≤ t ∧ t < a + 60 := hts t (List.mem_cons_self t rest)
    have hprune : pruneWindow t w = w := by
      apply pruneWindow_eq_self
      intro x hx
      have hx2 := hw x hx
      linarith [ht.2, hx2.1]
    have hwlen : w.length < 60 := by
      simp only [List.length_cons] at hlen
      omega
    have hstep : rate_limit_middleware t w = (true, w ++ [t]) := by
      unfold rate_limit_middleware
      rw [hprune]
      simp [Nat.not_le.mpr hwlen]
    have hrest := ih (w ++ [t])
      (by
        intro x hx
        rcases List.mem_append.mp hx with h1 | h1
        · exact hw x h1
        · rw [List.mem_singleton.mp h1]; exact ht)
      (fun x hx => hts x (List.mem_cons_of_mem t hx))
      (by simp only [List.length_append, List.length_singleton]
          simp only [List.length_cons] at hlen
          omega)
    unfold rateLimitRun
    rw [hstep]
    simp only [hrest, List.length_cons, List.replicate_succ]
    simp [List.append_assoc]

/-- C3: each admission decision prunes entries 60 s old or older, admits and
records exactly when the pruned window has fewer than 60 entries, and leaves
only the pruned window on rejection; consequently 60 calls inside one
60-second window are all admitted, a 61st call inside that window is
rejected, and once more than 60 s have passed since the stored window's first
timestamp a new call is admitted again. -/
theorem rate_limiter_sliding_window :
    (∀ (now : ℚ) (w : List ℚ),
        ((rate_limit_middleware now w).1 = true ↔ (pruneWindow now w).length < 60) ∧
        ((rate_limit_middleware now w).1 = true →
          (rate_limit_middleware now w).2 = pruneWindow now w ++ [now]) ∧
        ((rate_limit_middleware now w).1 = false →
          (rate_limit_middleware now w).2 = pruneWindow now w)) ∧
    (∀ (a : ℚ) (ts : List ℚ), (∀ x ∈ ts, a ≤ x ∧ x < a + 60) → ts.length = 60 →
        rateLimitRun ts [] = (List.replicate 60 true, ts)) ∧
    (∀ (a now : ℚ) (w : List ℚ), (∀ x ∈ w, a ≤ x ∧ x < a + 60) → w.length = 60 →
        a ≤ now → now < a + 60 → (rate_limit_middleware now w).1 = false) ∧
    (∀ (t0 now : ℚ) (rest : List ℚ), rest.length ≤ 59 → now - t0 > 60 →
        (rate_limit_middleware now (t0 :: rest)).1 = true) := by
  refine ⟨?_, ?_, ?_, ?_⟩
  · intro now w
    unfold rate_limit_middleware
    by_cases h : (pruneWindow now w).length ≥ 60
    · simp only [h, if_pos]
      refine ⟨by simp; omega, by simp, by simp⟩
    · simp only [h, if_neg]
      refine ⟨by simp; omega, by simp, by simp⟩
  · intro a ts hts hlen
    have h := rateLimitRun_all_admitted a ts [] (by simp) hts
      (by simp only [List.length_nil, hlen]; omega)
    rw [h, hlen]
    simp
  · intro a now w hw hlen hnow1 hnow2
    have hprune : pruneWindow now w = w := by
      apply pruneWindow_eq_self
      intro x hx
      linarith [(hw x hx).1]
    unfold rate_limit_middleware
    rw [hprune]
    simp [hlen]
  · intro t0 now rest hlen hgap
    have hdrop : pruneWindow now (t0 :: rest) = pruneWindow now rest := by
      unfold pruneWindow
      rw [List.filter_cons_of_neg]
      simp only [decide_eq_true_eq]
      linarith
    have hshort : (pruneWindow now (t0 :: rest)).length < 60 := by
      rw [hdrop]
      calc (pruneWindow now rest).length ≤ rest.length :=
            List.length_filter_le _ rest
        _ < 60 := by omega
    unfold rate_limit_middleware
    simp [Nat.not_le.mpr hshort]

/-- C3 witness: sixty calls at time 0 are all admitted from an empty window;
a sixty-first call still inside the window is rejected; a call at time 61,
more than 60 s after the stored window's first timestamp, is admitted. -/
theorem rate_limiter_sliding_window_witness :
    rateLimitRun (List.replicate 60 (0 : ℚ)) [] =
      (List.replicate 60 true, List.replicate 60 (0 : ℚ)) ∧
    (rate_limit_middleware (0 : ℚ) (List.replicate 60 (0 : ℚ))).1 = false ∧
    (rate_limit_middleware (61 : ℚ) ((0 : ℚ) :: List.replicate 59 (0 : ℚ))).1 = true := by
  refine ⟨?_, ?_, ?_⟩
  · exact rate_limiter_sliding_window.2.1 0 (List.replicate 60 (0 : ℚ))
      (by
        intro x hx
        rw [List.eq_of_mem_replicate hx]
        norm_num)
      (by simp)
  · exact rate_limiter_sliding_window.2.2.1 0 0 (List.replicate 60 (0 : ℚ))
      (by
        intro x hx
        rw [List.eq_of_mem_replicate hx]
        norm_num)
      (by simp) le_rfl (by norm_num)
  · exact rate_limiter_sliding_window.2.2.2 0 61 (List.replicate 59 (0 : ℚ))
      (by simp) (by norm_num)

/-- The fold result of `minLeg` is a lower bound for the seed and the list. -/
lemma minLeg_le (l : List RouteLeg) :
    ∀ b, (minLeg b l).co2_kg ≤ b.co2_kg ∧ ∀ y ∈ l, (minLeg b l).co2_kg ≤ y.co2_kg := by
  induction l with
  | nil => intro b; exact ⟨le_refl _, by simp⟩
  | cons x xs ih =>
    intro b
    unfold minLeg
    by_cases h : x.co2_kg < b.co2_kg
    · rw [if_pos h]
      obtain ⟨h1, h2⟩ := ih x
      refine ⟨le_trans h1 (le_of_lt h), ?_⟩
      intro y hy
      rcases List.mem_cons.mp hy with rfl | hy2
      · exact h1
      · exact h2 y hy2
    · rw [if_neg h]
      obtain ⟨h1, h2⟩ := ih b
      refine ⟨h1, ?_⟩
      intro y hy
      rcases List.mem_cons.mp hy with rfl | hy2
      · exact le_trans h1 (not_lt.mp h)
      · exact h2 y hy2

/-- If the fold never found anything strictly below the seed, it kept the seed. -/
lemma minLeg_eq_head (l : List RouteLeg) :
    ∀ b, b.co2_kg ≤ (minLeg b l).co2_kg → minLeg b l = b := by
  induction l with
  | nil => intro b _; rfl
  | cons x xs ih =>
    intro b hb
    unfold minLeg at hb ⊢
    by_cases h : x.co2_kg < b.co2_kg
    · rw [if_pos h] at hb ⊢
      exfalso
      have := (minLeg_le xs x).1
      linarith
    · rw [if_neg h] at hb ⊢
      exact ih b hb

/-- Once the running minimum drops strictly below a seed, the seed is
irrelevant: any seed at least as large yields the same fold result. -/
lemma minLeg_irrel (xs : List RouteLeg) :
    ∀ b x, (minLeg b xs).co2_kg < b.co2_kg → b.co2_kg ≤ x.co2_kg →
      minLeg x xs = minLeg b xs := by
  induction xs with
  | nil =>
    intro b x h _
    simp [minLeg] at h
  | cons z zs ih =>
    intro b x h hbx
    unfold minLeg at h ⊢
    by_cases hz : z.co2_kg < b.co2_kg
    · have hzx : z.co2_kg < x.co2_kg := lt_of_lt_of_le hz hbx
      rw [if_pos hz] at h
      rw [if_pos hzx, if_pos hz]
    · rw [if_neg hz] at h
      rw [if_neg hz]
      by_cases hzx : z.co2_kg < x.co2_kg
      · rw [if_pos hzx]
        exact ih b z h (not_lt.mp hz)
      · rw [if_neg hzx]
        exact ih b x h hbx

/-- The fold result of `minLeg` is an element of the list (seed included). -/
lemma minLeg_mem (l : List RouteLeg) : ∀ b, minLeg b l ∈ b :: l := by
  induction l with
  | nil => intro b; simp [minLeg]
  | cons x xs ih =>
    intro b
    unfold minLeg
    by_cases h : x.co2_kg < b.co2_kg
    · rw [if_pos h]
      rcases List.mem_cons.mp (ih x) with h1 | h1
      · rw [h1]; simp
      · simp [h1]
    · rw [if_neg h]
      rcases List.mem_cons.mp (ih b) with h1 | h1
      · rw [h1]; simp
      · simp [h1]

/-- `find?` only looks at the predicate's values on the list's elements. -/
lemma find?_congrOn {α : Type} (p q : α → Bool) :
    ∀ l : List α, (∀ x ∈ l, p x = q x) → l.find? p = l.find? q := by
  intro l
  induction l with
  | nil => intro _; rfl
  | cons a as ih =>
    intro h
    rw [List.find?_cons, List.find?_cons, h a (List.mem_cons_self a as)]
    cases hqa : q a
    · simp only [hqa]
      exact ih (fun x hx => h x (List.mem_cons_of_mem a hx))
    · simp only [hqa]

/-- The fold result of `minLeg` is the first element whose co2 is at most the
minimum value. -/
lemma find?_le_minLeg (l : List RouteLeg) :
    ∀ b, (b :: l).find? (fun y => decide (y.co2_kg ≤ (minLeg b l).co2_kg)) =
      some (minLeg b l) := by
  induction l with
  | nil =>
    intro b
    rw [List.find?_cons]
    simp [minLeg]
  | cons x xs ih =>
    intro b
    unfold minLeg
    by_cases hx : x.co2_kg < b.co2_kg
    · rw [if_pos hx]
      have hb : ¬ (b.co2_kg ≤ (minLeg x xs).co2_kg) := by
        have := (minLeg_le xs x).1
        push_neg
        linarith
      rw [List.find?_cons]
      simp only [decide_eq_false hb]
      exact ih x
    · rw [if_neg hx]
      by_cases hb : b.co2_kg ≤ (minLeg b xs).co2_kg
      · have heq : minLeg b xs = b := minLeg_eq_head xs b hb
        rw [heq]
        rw [List.find?_cons]
        simp
      · push_neg at hb
        have hxz : minLeg x xs = minLeg b xs := minLeg_irrel xs b x hb (not_lt.mp hx)
        rw [List.find?_cons]
        simp only [decide_eq_false (not_le.mpr hb)]
        have h2 := ih x
        rw [hxz] at h2
        exact h2

/-- On a nonempty list, the spec-side first-occurrence argmin coincides with
the code's fold. -/
lemma firstMinLeg_eq (b : RouteLeg) (l : List RouteLeg) :
    firstMinLeg (b :: l) = some (minLeg b l) := by
  unfold firstMinLeg
  have hmem : minLeg b l ∈ b :: l := minLeg_mem l b
  have hbound : ∀ y ∈ b :: l, (minLeg b l).co2_kg ≤ y.co2_kg := by
    intro y hy
    rcases List.mem_cons.mp hy with h1 | h1
    · rw [h1]; exact (minLeg_le l b).1
    · exact (minLeg_le l b).2 y h1
  have hcong : ∀ x ∈ b :: l,
      ((b :: l).all fun y => decide (x.co2_kg ≤ y.co2_kg)) =
        decide (x.co2_kg ≤ (minLeg b l).co2_kg) := by
    intro x _
    rw [Bool.eq_iff_iff]
    simp only [List.all_eq_true, decide_eq_true_eq]
    constructor
    · intro h; exact h (minLeg b l) hmem
    · intro h y hy; exact le_trans h (hbound y hy)
  rw [find?_congrOn _ _ _ hcong]
  exact find?_le_minLeg l b

/-- The fold result of `maxLeg` is an upper bound for the seed and the list. -/
lemma maxLeg_ge (l : List RouteLeg) :
    ∀ b, b.co2_kg ≤ (maxLeg b l).co2_kg ∧ ∀ y ∈ l, y.co2_kg ≤ (maxLeg b l).co2_kg := by
  induction l with
  | nil => intro b; exact ⟨le_refl _, by simp⟩
  | cons x xs ih =>
    intro b
    unfold maxLeg
    by_cases h : b.co2_kg < x.co2_kg
    · rw [if_pos h]
      obtain ⟨h1, h2⟩ := ih x
      refine ⟨le_trans (le_of_lt h) h1, ?_⟩
      intro y hy
      rcases List.mem_cons.mp hy with rfl | hy2
      · exact h1
      · exact h2 y hy2
    · rw [if_neg h]
      obtain ⟨h1, h2⟩ := ih b
      refine ⟨h1, ?_⟩
      intro y hy
      rcases List.mem_cons.mp hy with rfl | hy2
      · exact le_trans (not_lt.mp h) h1
      · exact h2 y hy2

/-- If the fold never found anything strictly above the seed, it kept the seed. -/
lemma maxLeg_eq_head (l : List RouteLeg) :
    ∀ b, (maxLeg b l).co2_kg ≤ b.co2_kg → maxLeg b l = b := by
  induction l with
  | nil => intro b _; rfl
  | cons x xs ih =>
    intro b hb
    unfold maxLeg at hb ⊢
    by_cases h : b.co2_kg < x.co2_kg
    · rw [if_pos h] at hb ⊢
      exfalso
      have := (maxLeg_ge xs x).1
      linarith
    · rw [if_neg h] at hb ⊢
      exact ih b hb

/-- Once the running maximum rises strictly above a seed, the seed is
irrelevant: any seed at most as large yields the same fold result. -/
lemma maxLeg_irrel (xs : List RouteLeg) :
    ∀ b x, b.co2_kg < (maxLeg b xs).co2_kg → x.co2_kg ≤ b.co2_kg →
      maxLeg x xs = maxLeg b xs := by
  induction xs with
  | nil =>
    intro b x h _
    simp [maxLeg] at h
  | cons z zs ih =>
    intro b x h hbx
    unfold maxLeg at h ⊢
    by_cases hz : b.co2_kg < z.co2_kg
    · have hzx : x.co2_kg < z.co2_kg := lt_of_le_of_lt hbx hz
      rw [if_pos hz] at h
      rw [if_pos hzx, if_pos hz]
    · rw [if_neg hz] at h
      rw [if_neg hz]
      by_cases hzx : x.co2_kg < z.co2_kg
      · rw [if_pos hzx]
        exact ih b z h (not_lt.mp hz)
      · rw [if_neg hzx]
        exact ih b x h hbx

/-- The fold result of `maxLeg` is an element of the list (seed included). -/
lemma maxLeg_mem (l : List RouteLeg) : ∀ b, maxLeg b l ∈ b :: l := by
  induction l with
  | nil => intro b; simp [maxLeg]
  | cons x xs ih =>
    intro b
    unfold maxLeg
    by_cases h : b.co2_kg < x.co2_kg
    · rw [if_pos h]
      rcases List.mem_cons.mp (ih x) with h1 | h1
      · rw [h1]; simp
      · simp [h1]
    · rw [if_neg h]
      rcases List.mem_cons.mp (ih b) with h1 | h1
      · rw [h1]; simp
      · simp [h1]

/-- The fold result of `maxLeg` is the first element whose co2 is at least the
maximum value. -/
lemma find?_ge_maxLeg (l : List RouteLeg) :
    ∀ b, (b :: l).find? (fun y => decide ((maxLeg b l).co2_kg ≤ y.co2_kg)) =
      some (maxLeg b l) := by
  induction l with
  | nil =>
    intro b
    rw [List.find?_cons]
    simp [maxLeg]
  | cons x xs ih =>
    intro b
    unfold maxLeg
    by_cases hx : b.co2_kg < x.co2_kg
    · rw [if_pos hx]
      have hb : ¬ ((maxLeg x xs).co2_kg ≤ b.co2_kg) := by
        have := (maxLeg_ge xs x).1
        push_neg
        linarith
      rw [List.find?_cons]
      simp only [decide_eq_false hb]
      exact ih x
    · rw [if_neg hx]
      by_cases hb : (maxLeg b xs).co2_kg ≤ b.co2_kg
      · have heq : maxLeg b xs = b := maxLeg_eq_head xs b hb
        rw [heq]
        rw [List.find?_cons]
        simp
      · push_neg at hb
        have hxz : maxLeg x xs = maxLeg b xs := maxLeg_irrel xs b x hb (not_lt.mp hx)
        rw [List.find?_cons]
        simp only [decide_eq_false (not_le.mpr hb)]
        have h2 := ih x
        rw [hxz] at h2
        exact h2

/-- On a nonempty list, the spec-side first-occurrence argmax coincides with
the code's fold. -/
lemma firstMaxLeg_eq (b : RouteLeg) (l : List RouteLeg) :
    firstMaxLeg (b :: l) = some (maxLeg b l) := by
  unfold firstMaxLeg
  have hmem : maxLeg b l ∈ b :: l := maxLeg_mem l b
  have hbound : ∀ y ∈ b :: l, y.co2_kg ≤ (maxLeg b l).co2_kg := by
    intro y hy
    rcases List.mem_cons.mp hy with h1 | h1
    · rw [h1]; exact (maxLeg_ge l b).1
    · exact (maxLeg_ge l b).2 y h1
  have hcong : ∀ x ∈ b :: l,
      ((b :: l).all fun y => decide (y.co2_kg ≤ x.co2_kg)) =
        decide ((maxLeg b l).co2_kg ≤ x.co2_kg) := by
    intro x _
    rw [Bool.eq_iff_iff]
    simp only [List.all_eq_true, decide_eq_true_eq]
    constructor
    · intro h; exact h (maxLeg b l) hmem
    · intro h y hy; exact le_trans (hbound y hy) h
  rw [find?_congrOn _ _ _ hcong]
  exact find?_ge_maxLeg l b

/-- C1 counterexample: with a 1 km driving route (co2 0.171) and a walking
route (co2 0), the comparison does recommend walking but its savings are
0.17 — the 2-decimal rounding of the driving co2, not the driving leg's
co2_kg itself; and with a zero-length route both legs carry co2 0 and the
first-occurrence tie-break recommends "driving", not "walking". -/
theorem route_compare_walking_counterexample :
    route_optimize planner171 ["driving", "walking"] =
      .ok { routes := [legFrom "driving" (mkRS 1 3 (171/1000)),
                       legFrom "walking" (mkRS 1 12 0)],
            recommended := "walking", savings_co2_kg := 17/100 } ∧
    (17/100 : ℚ) ≠ (mkRS 1 3 (171/1000)).co2_kg ∧
    route_optimize plannerZero ["driving", "walking"] =
      .ok { routes := [legFrom "driving" (mkRS 0 0 0), legFrom "walking" (mkRS 0 0 0)],
            recommended := "driving", savings_co2_kg := 0 } ∧
    "driving" ≠ "walking" := by
  refine ⟨?_, by norm_num [mkRS], ?_, by decide⟩
  · have hlegs : collectLegs planner171 ["driving", "walking"] =
        .ok [legFrom "driving" (mkRS 1 3 (171/1000)), legFrom "walking" (mkRS 1 12 0)] := by
      simp [collectLegs, collectLegsTraced, planner171, Except.map]
    have hmin : minLeg (legFrom "driving" (mkRS 1 3 (171/1000)))
        [legFrom "walking" (mkRS 1 12 0)] = legFrom "walking" (mkRS 1 12 0) := by
      simp only [minLeg]
      rw [if_pos (by norm_num [legFrom, mkRS])]
    have hmax : maxLeg (legFrom "driving" (mkRS 1 3 (171/1000)))
        [legFrom "walking" (mkRS 1 12 0)] = legFrom "driving" (mkRS 1 3 (171/1000)) := by
      simp only [maxLeg]
      rw [if_neg (by norm_num [legFrom, mkRS])]
    unfold route_optimize route_optimize_body
    rw [hlegs]
    simp only [hmin, hmax]
    norm_num [legFrom, mkRS, pyRound, roundHalfEven]
  · have hlegs : collectLegs plannerZero ["driving", "walking"] =
        .ok [legFrom "driving" (mkRS 0 0 0), legFrom "walking" (mkRS 0 0 0)] := by
      simp [collectLegs, collectLegsTraced, plannerZero, Except.map]
    have hmin : minLeg (legFrom "driving" (mkRS 0 0 0)) [legFrom "walking" (mkRS 0 0 0)] =
        legFrom "driving" (mkRS 0 0 0) := by
      simp only [minLeg]
      rw [if_neg (by norm_num [legFrom, mkRS])]
    have hmax : maxLeg (legFrom "driving" (mkRS 0 0 0)) [legFrom "walking" (mkRS 0 0 0)] =
        legFrom "driving" (mkRS 0 0 0) := by
      simp only [maxLeg]
      rw [if_neg (by norm_num [legFrom, mkRS])]
    unfold route_optimize route_optimize_body
    rw [hlegs]
    simp only [hmin, hmax]
    norm_num [legFrom, mkRS, pyRound, roundHalfEven]

/-- C1 amended: over the successful legs the recommendation is the mode of
the first-occurrence minimum-co2 leg and the savings are
round(max co2 − min co2, 2); in particular with modes ["driving","walking"],
a walking leg of co2 0 and a driving leg of positive co2, the recommendation
is "walking" and the savings are the driving co2 rounded to 2 decimals, while
a co2 tie (both 0) recommends the first-listed "driving". -/
theorem route_compare_first_min_and_savings :
    (∀ (planner : String → PlannerResult) (modes : List String)
        (r : RouteLeg) (rs : List RouteLeg),
        collectLegs planner modes = .ok (r :: rs) →
        firstMinLeg (r :: rs) = some (minLeg r rs) ∧
        firstMaxLeg (r :: rs) = some (maxLeg r rs) ∧
        route_optimize planner modes =
          .ok { routes := r :: rs, recommended := (minLeg r rs).mode,
                savings_co2_kg := pyRound ((maxLeg r rs).co2_kg - (minLeg r rs).co2_kg) 2 }) ∧
    (∀ (planner : String → PlannerResult) (d w : RouteSuccess),
        planner "driving" = .ok d → planner "walking" = .ok w →
        w.co2_kg = 0 → 0 < d.co2_kg →
        route_optimize planner ["driving", "walking"] =
          .ok { routes := [legFrom "driving" d, legFrom "walking" w],
                recommended := "walking", savings_co2_kg := pyRound d.co2_kg 2 }) ∧
    (∀ (planner : String → PlannerResult) (d w : RouteSuccess),
        planner "driving" = .ok d → planner "walking" = .ok w →
        w.co2_kg = 0 → d.co2_kg = 0 →
        route_optimize planner ["driving", "walking"] =
          .ok { routes := [legFrom "driving" d, legFrom "walking" w],
                recommended := "driving", savings_co2_kg := 0 }) := by
  refine ⟨?_, ?_, ?_⟩
  · intro planner modes r rs h
    refine ⟨firstMinLeg_eq r rs, firstMaxLeg_eq r rs, ?_⟩
    unfold route_optimize route_optimize_body
    rw [h]
  · intro planner d w hd hw hw0 hpos
    have hlegs : collectLegs planner ["driving", "walking"] =
        .ok [legFrom "driving" d, legFrom "walking" w] := by
      simp [collectLegs, collectLegsTraced, hd, hw, Except.map]
    have hco : (legFrom "walking" w).co2_kg < (legFrom "driving" d).co2_kg := by
      simp only [legFrom]
      rw [hw0]
      exact hpos
    have hmin : minLeg (legFrom "driving" d) [legFrom "walking" w] = legFrom "walking" w := by
      simp only [minLeg]
      rw [if_pos hco]
    have hmax : maxLeg (legFrom "driving" d) [legFrom "walking" w] = legFrom "driving" d := by
      simp only [maxLeg]
      rw [if_neg (not_lt.mpr (le_of_lt hco))]
    unfold route_optimize route_optimize_body
    rw [hlegs]
    simp only [hmin, hmax]
    simp only [legFrom, hw0, sub_zero]
  · intro planner d w hd hw hw0 hd0
    have hlegs : collectLegs planner ["driving", "walking"] =
        .ok [legFrom "driving" d, legFrom "walking" w] := by
      simp [collectLegs, collectLegsTraced, hd, hw, Except.map]
    have hco : (legFrom "walking" w).co2_kg = (legFrom "driving" d).co2_kg := by
      simp only [legFrom]
      rw [hw0, hd0]
    have hmin : minLeg (legFrom "driving" d) [legFrom "walking" w] = legFrom "driving" d := by
      simp only [minLeg]
      rw [if_neg (not_lt.mpr (le_of_eq hco.symm))]
    have hmax : maxLeg (legFrom "driving" d) [legFrom "walking" w] = legFrom "driving" d := by
      simp only [maxLeg]
      rw [if_neg (not_lt.mpr (le_of_eq hco))]
    unfold route_optimize route_optimize_body
    rw [hlegs]
    simp only [hmin, hmax]
    simp only [legFrom, hd0, sub_zero]
    norm_num [pyRound, roundHalfEven]

/-- C1 witness: a planner with a 0.3 kg driving leg and a 0 kg walking leg
yields the walking recommendation with savings 0.3. -/
theorem route_compare_first_min_and_savings_witness :
    route_optimize planner03 ["driving", "walking"] =
      .ok { routes := [legFrom "driving" (mkRS 2 4 (3/10)), legFrom "walking" (mkRS 2 25 0)],
            recommended := "walking", savings_co2_kg := 3/10 } := by
  have h := route_compare_first_min_and_savings.2.1 planner03
    (mkRS 2 4 (3/10)) (mkRS 2 25 0)
    (by simp [planner03]) (by simp [planner03]) rfl (by norm_num [mkRS])
  rw [h]
  norm_num [mkRS, pyRound, roundHalfEven]

/-- C4 counterexample: a 1005 m driving leg is returned with
distance_km = 1.0 (2-decimal rounding of 1.005) and co2_kg = 0.172, but
round(returned distance_km × 0.171, 3) = 0.171 — the returned co2 is derived
from the unrounded distance, so the claimed equation fails on the returned
fields. -/
theorem route_co2_rounded_distance_counterexample :
    calculate_route_emissions "driving" 200 dirBody1005 = .ok (mkRS 1 1 (43/250)) ∧
    pyRound ((mkRS 1 1 (43/250)).distance_km * emissionFactor "driving") 3 = 171/1000 ∧
    (mkRS 1 1 (43/250)).co2_kg ≠
      pyRound ((mkRS 1 1 (43/250)).distance_km * emissionFactor "driving") 3 := by
  refine ⟨?_, ?_, ?_⟩
  · norm_num [calculate_route_emissions, dirBody1005, routeValidModes, emissionFactor,
      pyRound, roundHalfEven, mkRS]
  · norm_num [mkRS, emissionFactor, pyRound, roundHalfEven]
  · norm_num [mkRS, emissionFactor, pyRound, roundHalfEven]

/-- C4 amended: every successful route-planner result reads the first route's
first leg and returns distance_km = round(metres/1000, 2),
duration_min = round(seconds/60, 1) and
co2_kg = round((metres/1000) × factor[mode], 3) — the co2 is derived from the
unrounded kilometre distance, with the fixed factor table driving 0.171,
transit 0.089, walking 0, bicycling 0. -/
theorem route_co2_from_unrounded_distance :
    (∀ (mode : String) (status : ℕ) (b : DirectionsBody) (r : RouteSuccess),
        calculate_route_emissions mode status b = .ok r →
        ∃ rt leg dm ds,
          b.routes.head? = some rt ∧ rt.legs.head? = some leg ∧
          leg.distanceValue = some dm ∧ leg.durationValue = some ds ∧
          r.distance_km = pyRound (dm / 1000) 2 ∧
          r.duration_min = pyRound (ds / 60) 1 ∧
          r.co2_kg = pyRound (dm / 1000 * emissionFactor mode) 3) ∧
    emissionFactor "driving" = 171/1000 ∧ emissionFactor "transit" = 89/1000 ∧
    emissionFactor "walking" = 0 ∧ emissionFactor "bicycling" = 0 := by
  refine ⟨?_, rfl, rfl, rfl, rfl⟩
  intro mode status b r h
  unfold calculate_route_emissions at h
  split at h
  · cases h
  · split at h
    · cases h
    · split at h
      · cases h
      · rename_i st hbs
        split at h
        · cases h
        · split at h
          · cases h
          · rename_i route hrt
            split at h
            · cases h
            · rename_i leg hlg
              split at h
              · rename_i dm ds poly sa ea hdm hds hpo hsa hea
                cases h
                exact ⟨route, leg, dm, ds, hrt, hlg, hdm, hds, rfl, rfl, rfl⟩
              · cases h

/-- C4 witness: a 2000 m, 300 s driving leg is returned as 2.0 km, 5.0 min
and co2 0.342 = round(2 × 0.171, 3). -/
theorem route_co2_from_unrounded_distance_witness :
    ∃ rt leg dm ds,
      dirBody2000.routes.head? = some rt ∧ rt.legs.head? = some leg ∧
      leg.distanceValue = some dm ∧ leg.durationValue = some ds ∧
      (mkRS 2 5 (171/500)).distance_km = pyRound (dm / 1000) 2 ∧
      (mkRS 2 5 (171/500)).duration_min = pyRound (ds / 60) 1 ∧
      (mkRS 2 5 (171/500)).co2_kg = pyRound (dm / 1000 * emissionFactor "driving") 3 := by
  apply route_co2_from_unrounded_distance.1 "driving" 200 dirBody2000 (mkRS 2 5 (171/500))
  norm_num [calculate_route_emissions, dirBody2000, routeValidModes, emissionFactor,
    pyRound, roundHalfEven, mkRS]

end EcoWisely
